import Mathlib

/-!
Shallow embedding of the Portfolio-web backend (src/server.js, src/db.js).

The server is a set of Express request handlers over a MySQL database and an
in-memory session.  We model the database as lists of rows, the session as an
`Option Session`, and each handler as a pure function from the server state and
the request inputs to a response together with the new state.  A `dbOk : Bool`
flag models whether the database queries inside the handler's try block succeed
(`false` sends the handler into its catch branch).  bcrypt is modelled as an
idealized salted hash that records its cost factor and verifies by content
comparison.
-/

namespace Portfolio

/-- Idealized bcrypt digest: records the cost factor passed to `bcrypt.hash`
and the hashed content. -/
structure Hash where
  cost : Nat
  content : String
deriving DecidableEq, Repr

/-- `bcrypt.hash(password, cost)`. -/
def bcryptHash (password : String) (cost : Nat) : Hash :=
  { cost := cost, content := password }

/-- `bcrypt.compare(password, hash)`. -/
def bcryptCompare (password : String) (h : Hash) : Bool :=
  h.content == password

/-- A row of the `users` table (db.js: id, username, email, password,
created_at). -/
structure User where
  id : Nat
  username : String
  email : String
  password : Hash
  created_at : Nat
deriving DecidableEq, Repr

/-- A row of the `messages` table (db.js: id, user_id nullable FK, name,
email, subject, message, created_at). -/
structure Msg where
  id : Nat
  user_id : Option Nat
  name : String
  email : String
  subject : String
  message : String
  created_at : Nat
deriving DecidableEq, Repr

/-- The relational store, plus the auto-increment counters. -/
structure Db where
  users : List User
  messages : List Msg
  nextUserId : Nat
  nextMsgId : Nat
deriving DecidableEq, Repr

/-- The express-session record: `req.session.userId` and
`req.session.username`. -/
structure Session where
  userId : Nat
  username : String
deriving DecidableEq, Repr

/-- Whole-server state: database contents plus the current request's session
(`none` = no active session) plus the server clock used for `created_at`
stamps. -/
structure ServerState where
  db : Db
  session : Option Session
  now : Nat
deriving DecidableEq, Repr

/-- Insertion step of a stable sort (used to model SQL `ORDER BY`). -/
def insertBy {α : Type} (le : α → α → Bool) (x : α) : List α → List α
  | [] => [x]
  | y :: ys => if le x y then x :: y :: ys else y :: insertBy le x ys

/-- Stable insertion sort by a boolean comparison (models SQL `ORDER BY`). -/
def sortBy {α : Type} (le : α → α → Bool) : List α → List α
  | [] => []
  | x :: xs => insertBy le x (sortBy le xs)

/-- `ORDER BY created_at DESC` comparison on users. -/
def userDesc (a b : User) : Bool := decide (b.created_at ≤ a.created_at)

/-- `ORDER BY m.created_at DESC` comparison on messages. -/
def msgDesc (a b : Msg) : Bool := decide (b.created_at ≤ a.created_at)

/-- Longest prefix of decimal digits. -/
def takeDigits (cs : List Char) : List Char :=
  cs.takeWhile (fun c => c.isDigit)

/-- Numeric value of a digit list. -/
def digitsToNat (cs : List Char) : Nat :=
  cs.foldl (fun acc c => acc * 10 + (c.toNat - 48)) 0

/-- JavaScript `parseInt(s)` on decimal input: skip leading whitespace, read an
optional sign and then a longest run of digits; `none` models `NaN`. -/
def jsParseInt (s : String) : Option Int :=
  match s.toList.dropWhile (fun c => c.isWhitespace) with
  | [] => none
  | c :: rest =>
    if c == '-' then
      let ds := takeDigits rest
      if ds.isEmpty then none else some (-(digitsToNat ds : Int))
    else if c == '+' then
      let ds := takeDigits rest
      if ds.isEmpty then none else some (digitsToNat ds : Int)
    else
      let ds := takeDigits (c :: rest)
      if ds.isEmpty then none else some (digitsToNat ds : Int)

/-- `parseInt(req.query.page_x) || 1` (server.js:137-138): a missing parameter,
a non-numeric parameter (`NaN`) and a parse result of `0` all fall back to 1. -/
def pageOr1 (q : Option String) : Int :=
  match q with
  | none => 1
  | some s =>
    match jsParseInt s with
    | none => 1
    | some n => if n = 0 then 1 else n

/-- Response of /api/register and /api/login: `res.json({success, message,
username?})`; the username key is present only on success. -/
structure AuthResponse where
  status : Nat
  success : Bool
  message : Option String
  username : Option String
deriving DecidableEq, Repr

/-- Response of /api/check_auth: `{isLoggedIn, username?}`. -/
structure CheckAuthResponse where
  status : Nat
  isLoggedIn : Bool
  username : Option String
deriving DecidableEq, Repr

/-- Response of /api/logout: `{success}`. -/
structure LogoutResponse where
  status : Nat
  success : Bool
deriving DecidableEq, Repr

/-- Response of /api/contact: `{success, message}`. -/
structure ContactResponse where
  status : Nat
  success : Bool
  message : String
deriving DecidableEq, Repr

/-- A user row as projected by the admin query
`SELECT id, username, email, created_at FROM users` (server.js:146). -/
structure AdminUserRow where
  id : Nat
  username : String
  email : String
  created_at : Nat
deriving DecidableEq, Repr

/-- A message row as produced by `SELECT m.*, u.username as user_name FROM
messages m LEFT JOIN users u ON m.user_id = u.id` (server.js:151-157). -/
structure AdminMsgRow where
  id : Nat
  user_id : Option Nat
  name : String
  email : String
  subject : String
  message : String
  created_at : Nat
  user_name : Option String
deriving DecidableEq, Repr

/-- One pagination envelope `{data, total, current_page, per_page,
total_pages}`. -/
structure PageBlock (α : Type) where
  data : List α
  total : Nat
  current_page : Int
  per_page : Nat
  total_pages : Nat
deriving DecidableEq, Repr

/-- `LIMIT 10 OFFSET (page-1)*10` plus the count/ceil bookkeeping of
server.js:139-141 and 159-175 (`Math.ceil(total/10)` is `(total+9)/10`). -/
def paginate {α : Type} (rows : List α) (page : Int) : PageBlock α :=
  { data := (rows.drop ((page - 1) * 10).toNat).take 10
  , total := rows.length
  , current_page := page
  , per_page := 10
  , total_pages := (rows.length + 9) / 10 }

/-- Response of /api/admin/data; the two blocks are present only on the
success path. -/
structure AdminResponse where
  status : Nat
  success : Bool
  message : Option String
  users : Option (PageBlock AdminUserRow)
  messages : Option (PageBlock AdminMsgRow)
deriving DecidableEq, Repr

/-- POST /api/register (server.js:30-58). -/
def register (st : ServerState) (username email password confirmPassword : String)
    (dbOk : Bool) : AuthResponse × ServerState :=
  if username = "" ∨ email = "" ∨ password = "" ∨ confirmPassword = "" then
    ({ status := 200, success := false, message := some "請填寫所有欄位", username := none }, st)
  else if password ≠ confirmPassword then
    ({ status := 200, success := false, message := some "兩次輸入的密碼不一致", username := none }, st)
  else if dbOk = false then
    ({ status := 200, success := false, message := some "註冊失敗，系統錯誤", username := none }, st)
  else if st.db.users.any (fun u => u.username == username || u.email == email) then
    ({ status := 200, success := false, message := some "使用者名稱或 Email 已被註冊", username := none }, st)
  else
    let uid := st.db.nextUserId
    let newUser : User :=
      { id := uid, username := username, email := email
      , password := bcryptHash password 10, created_at := st.now }
    ({ status := 200, success := true, message := some "註冊成功！", username := some username }
    , { st with
        db := { st.db with users := st.db.users ++ [newUser], nextUserId := uid + 1 }
      , session := some { userId := uid, username := username } })

/-- POST /api/login (server.js:61-83); the lookup is
`WHERE username = ? OR email = ?` with the submitted username for both. -/
def login (st : ServerState) (username password : String) (dbOk : Bool) :
    AuthResponse × ServerState :=
  if username = "" ∨ password = "" then
    ({ status := 200, success := false, message := some "請填寫所有欄位", username := none }, st)
  else if dbOk = false then
    ({ status := 200, success := false, message := some "系統錯誤", username := none }, st)
  else
    match st.db.users.find? (fun u => u.username == username || u.email == username) with
    | some u =>
      if bcryptCompare password u.password then
        ({ status := 200, success := true, message := some "登入成功！", username := some u.username }
        , { st with session := some { userId := u.id, username := u.username } })
      else
        ({ status := 200, success := false, message := some "帳號或密碼錯誤", username := none }, st)
    | none =>
      ({ status := 200, success := false, message := some "帳號或密碼錯誤", username := none }, st)

/-- GET /api/check_auth (server.js:86-92). -/
def check_auth (st : ServerState) : CheckAuthResponse × ServerState :=
  match st.session with
  | some s => ({ status := 200, isLoggedIn := true, username := some s.username }, st)
  | none => ({ status := 200, isLoggedIn := false, username := none }, st)

/-- GET /api/logout (server.js:95-98): `req.session.destroy()` then
`{success:true}`. -/
def logout (st : ServerState) : LogoutResponse × ServerState :=
  ({ status := 200, success := true }, { st with session := none })

/-- POST /api/contact (server.js:101-122). -/
def contact (st : ServerState) (name email subject message : String) (dbOk : Bool) :
    ContactResponse × ServerState :=
  match st.session with
  | none =>
    ({ status := 401, success := false, message := "請先登入會員" }, st)
  | some s =>
    if name = "" ∨ email = "" ∨ subject = "" ∨ message = "" then
      ({ status := 200, success := false, message := "請填寫所有欄位" }, st)
    else if dbOk = false then
      ({ status := 200, success := false, message := "留言發送失敗，請稍後再試" }, st)
    else
      let m : Msg :=
        { id := st.db.nextMsgId, user_id := some s.userId, name := name
        , email := email, subject := subject, message := message, created_at := st.now }
      ({ status := 200, success := true, message := "留言發送成功！感謝您的聯繫。" }
      , { st with db := { st.db with messages := st.db.messages ++ [m], nextMsgId := st.db.nextMsgId + 1 } })

/-- The admin query's projection of a user row (server.js:146). -/
def projUser (u : User) : AdminUserRow :=
  { id := u.id, username := u.username, email := u.email, created_at := u.created_at }

/-- The LEFT JOIN of a message with its submitter (server.js:151-157):
`user_name` is null when `user_id` is null or references no user row. -/
def joinMsg (users : List User) (m : Msg) : AdminMsgRow :=
  { id := m.id, user_id := m.user_id, name := m.name, email := m.email
  , subject := m.subject, message := m.message, created_at := m.created_at
  , user_name := m.user_id.bind (fun uid => (users.find? (fun u => u.id == uid)).map (fun u => u.username)) }

/-- GET /api/admin/data (server.js:125-181).  The session check precedes the
try block; inside it the admin check re-reads the username from the database
by the session's user id; the catch branch is `res.status(500)`. -/
def get_admin_data (st : ServerState) (pageUsersQ pageMsgsQ : Option String)
    (dbOk : Bool) : AdminResponse × ServerState :=
  match st.session with
  | none =>
    ({ status := 401, success := false, message := some "請先登入", users := none, messages := none }, st)
  | some s =>
    if dbOk = false then
      ({ status := 500, success := false, message := some "系統錯誤", users := none, messages := none }, st)
    else
      match st.db.users.find? (fun u => u.id == s.userId) with
      | none =>
        ({ status := 403, success := false, message := some "權限不足", users := none, messages := none }, st)
      | some u =>
        if u.username ≠ "admin" then
          ({ status := 403, success := false, message := some "權限不足", users := none, messages := none }, st)
        else
          let pageUsers := pageOr1 pageUsersQ
          let pageMsgs := pageOr1 pageMsgsQ
          let usersRows := (sortBy userDesc st.db.users).map projUser
          let msgsRows := (sortBy msgDesc st.db.messages).map (joinMsg st.db.users)
          ({ status := 200, success := true, message := none
           , users := some (paginate usersRows pageUsers)
           , messages := some (paginate msgsRows pageMsgs) }, st)

/-- A JSON value, used to state what the serialized response payloads
contain. -/
inductive JVal where
  | null
  | bool (b : Bool)
  | int (n : Int)
  | str (s : String)
  | obj (fields : List (String × JVal))
  | arr (items : List JVal)
deriving Repr

mutual

/-- All object keys occurring anywhere in a JSON value. -/
def keysOf : JVal → List String
  | JVal.null => []
  | JVal.bool _ => []
  | JVal.int _ => []
  | JVal.str _ => []
  | JVal.obj fs => keysOfFields fs
  | JVal.arr xs => keysOfList xs

/-- All object keys in a field list, the field names included. -/
def keysOfFields : List (String × JVal) → List String
  | [] => []
  | (k, v) :: rest => k :: (keysOf v ++ keysOfFields rest)

/-- All object keys in a list of JSON values. -/
def keysOfList : List JVal → List String
  | [] => []
  | v :: rest => keysOf v ++ keysOfList rest

end

/-- Optional string field: `res.json` omits keys whose value is undefined. -/
def optField (k : String) : Option String → List (String × JVal)
  | none => []
  | some s => [(k, JVal.str s)]

/-- Serialization of a register/login response. -/
def encAuth (r : AuthResponse) : JVal :=
  JVal.obj ([("success", JVal.bool r.success)]
    ++ optField "message" r.message ++ optField "username" r.username)

/-- Serialization of a check_auth response. -/
def encCheckAuth (r : CheckAuthResponse) : JVal :=
  JVal.obj ([("isLoggedIn", JVal.bool r.isLoggedIn)] ++ optField "username" r.username)

/-- Serialization of an admin user row: exactly the four selected columns. -/
def encUserRow (u : AdminUserRow) : JVal :=
  JVal.obj [("id", JVal.int u.id), ("username", JVal.str u.username)
  , ("email", JVal.str u.email), ("created_at", JVal.int u.created_at)]

/-- Serialization of a joined message row (`m.*` plus `user_name`). -/
def encMsgRow (m : AdminMsgRow) : JVal :=
  JVal.obj [("id", JVal.int m.id)
  , ("user_id", match m.user_id with | none => JVal.null | some v => JVal.int v)
  , ("name", JVal.str m.name), ("email", JVal.str m.email)
  , ("subject", JVal.str m.subject), ("message", JVal.str m.message)
  , ("created_at", JVal.int m.created_at)
  , ("user_name", match m.user_name with | none => JVal.null | some v => JVal.str v)]

/-- Serialization of one pagination envelope. -/
def encBlock {α : Type} (encRow : α → JVal) (b : PageBlock α) : JVal :=
  JVal.obj [("data", JVal.arr (b.data.map encRow)), ("total", JVal.int b.total)
  , ("current_page", JVal.int b.current_page), ("per_page", JVal.int b.per_page)
  , ("total_pages", JVal.int b.total_pages)]

/-- Serialization of an admin-data response. -/
def encAdmin (r : AdminResponse) : JVal :=
  JVal.obj ([("success", JVal.bool r.success)]
    ++ optField "message" r.message
    ++ (match r.users with | none => [] | some b => [("users", encBlock encUserRow b)])
    ++ (match r.messages with | none => [] | some b => [("messages", encBlock encMsgRow b)]))

/-- Insertion into a sorted list preserves length. -/
theorem length_insertBy {α : Type} (le : α → α → Bool) (x : α) (l : List α) :
    (insertBy le x l).length = l.length + 1 := by
  induction l with
  | nil => rfl
  | cons y ys ih =>
    by_cases h : le x y = true
    · simp [insertBy, h]
    · simp [insertBy, h, ih]

/-- Sorting preserves length (the SQL result set has as many rows as the
table). -/
theorem length_sortBy {α : Type} (le : α → α → Bool) (l : List α) :
    (sortBy le l).length = l.length := by
  induction l with
  | nil => rfl
  | cons x xs ih => simp [sortBy, length_insertBy, ih]

/-- The empty server state: fresh database, no session. -/
def st0 : ServerState :=
  { db := { users := [], messages := [], nextUserId := 1, nextMsgId := 1 }
  , session := none, now := 0 }

/-- The boolean admin check of server.js:132-135 on the current state:
the session's user id resolves to a user row whose username is "admin". -/
def adminOk (st : ServerState) : Bool :=
  match st.session with
  | none => false
  | some s =>
    match st.db.users.find? (fun u => u.id == s.userId) with
    | none => false
    | some u => u.username == "admin"

/-- Claim C8: from a fresh state, for every valid registration input
(u, e, p, p): register succeeds, then login(u, p) succeeds, check_auth then
reports isLoggedIn true with username u, logout succeeds (and logout succeeds
from every state, even without a session), a subsequent check_auth reports
isLoggedIn false, and check_auth never modifies the state. -/
theorem C8_round_trip (u e p : String) (hu : u ≠ "") (he : e ≠ "") (hp : p ≠ "") :
    (register st0 u e p p true).1.success = true ∧
    (login (register st0 u e p p true).2 u p true).1.success = true ∧
    (login (register st0 u e p p true).2 u p true).1.username = some u ∧
    (check_auth (login (register st0 u e p p true).2 u p true).2).1.isLoggedIn = true ∧
    (check_auth (login (register st0 u e p p true).2 u p true).2).1.username = some u ∧
    (logout (login (register st0 u e p p true).2 u p true).2).1.success = true ∧
    (check_auth (logout (login (register st0 u e p p true).2 u p true).2).2).1.isLoggedIn = false ∧
    (∀ st : ServerState, (logout st).1.success = true) ∧
    (∀ st : ServerState, (check_auth st).2 = st) := by
  refine ⟨?_, ?_, ?_, ?_, ?_, ?_, ?_, ?_, ?_⟩ <;>
    simp [register, login, check_auth, logout, st0, bcryptHash, bcryptCompare, hu, he, hp]
  intro st
  cases h : st.session <;> simp [check_auth, h]

/-- Witness for C8 at the concrete registration ("a", "b@c", "pw"). -/
theorem C8_round_trip_witness :
    (register st0 "a" "b@c" "pw" "pw" true).1.success = true ∧
    (login (register st0 "a" "b@c" "pw" "pw" true).2 "a" "pw" true).1.username = some "a" ∧
    (check_auth (logout (login (register st0 "a" "b@c" "pw" "pw" true).2 "a" "pw" true).2).2).1.isLoggedIn = false := by
  have h := C8_round_trip "a" "b@c" "pw" (by decide) (by decide) (by decide)
  exact ⟨h.1, h.2.2.1, h.2.2.2.2.2.2.1⟩

/-- A state with one ordinary (non-admin) registered user, logged in. -/
def stBob : ServerState :=
  { db := { users := [{ id := 1, username := "bob", email := "b@x", password := bcryptHash "pw" 10, created_at := 0 }]
          , messages := [], nextUserId := 2, nextMsgId := 1 }
  , session := some { userId := 1, username := "bob" }, now := 0 }

/-- A state with the "admin" user registered and logged in. -/
def stAdm : ServerState :=
  { db := { users := [{ id := 1, username := "admin", email := "a@x", password := bcryptHash "pw" 10, created_at := 0 }]
          , messages := [], nextUserId := 2, nextMsgId := 1 }
  , session := some { userId := 1, username := "admin" }, now := 0 }

/-- Claim C1: without a session /api/admin/data answers 401 with
success:false; with a session whose username (consistent with the database
row of its user id) is not "admin" it answers 403 with success:false and no
user or message block; only a session whose username is "admin" receives the
paginated data. -/
theorem C1_admin_access_control (st : ServerState) (pu pm : Option String) :
    (st.session = none →
      (get_admin_data st pu pm true).1 =
        { status := 401, success := false, message := some "請先登入"
        , users := none, messages := none }) ∧
    (∀ s usr, st.session = some s →
      st.db.users.find? (fun x => x.id == s.userId) = some usr →
      usr.username = s.username → s.username ≠ "admin" →
      (get_admin_data st pu pm true).1.status = 403 ∧
      (get_admin_data st pu pm true).1.success = false ∧
      (get_admin_data st pu pm true).1.users = none ∧
      (get_admin_data st pu pm true).1.messages = none) ∧
    (∀ s usr, st.session = some s →
      st.db.users.find? (fun x => x.id == s.userId) = some usr →
      usr.username = s.username → s.username = "admin" →
      (get_admin_data st pu pm true).1.status = 200 ∧
      (get_admin_data st pu pm true).1.success = true ∧
      (get_admin_data st pu pm true).1.users ≠ none ∧
      (get_admin_data st pu pm true).1.messages ≠ none) := by
  refine ⟨?_, ?_, ?_⟩
  · intro h
    simp [get_admin_data, h]
  · intro s usr hs hf hname hne
    have hne2 : usr.username ≠ "admin" := by rw [hname]; exact hne
    simp [get_admin_data, hs, hf, hne2]
  · intro s usr hs hf hname hadm
    have heq : usr.username = "admin" := by rw [hname, hadm]
    simp [get_admin_data, hs, hf, heq]

/-- Witness for C1: the fresh state gets 401, bob's session gets 403 with no
rows, the admin session gets the data. -/
theorem C1_admin_access_control_witness :
    (get_admin_data st0 none none true).1.status = 401 ∧
    (get_admin_data stBob none none true).1.status = 403 ∧
    (get_admin_data stBob none none true).1.users = none ∧
    (get_admin_data stAdm none none true).1.status = 200 ∧
    (get_admin_data stAdm none none true).1.users ≠ none := by
  refine ⟨?_, ?_, ?_, ?_, ?_⟩
  · rw [(C1_admin_access_control st0 none none).1 rfl]
  · exact ((C1_admin_access_control stBob none none).2.1
      { userId := 1, username := "bob" } _ rfl rfl rfl (by decide)).1
  · exact ((C1_admin_access_control stBob none none).2.1
      { userId := 1, username := "bob" } _ rfl rfl rfl (by decide)).2.2.1
  · exact ((C1_admin_access_control stAdm none none).2.2
      { userId := 1, username := "admin" } _ rfl rfl rfl rfl).1
  · exact ((C1_admin_access_control stAdm none none).2.2
      { userId := 1, username := "admin" } _ rfl rfl rfl rfl).2.2.1

/-- Claim C9: the admin decision of /api/admin/data reads the username from
the database row of the session's user id, never from the session itself, so
the whole response is independent of the session's stored username; and a
session whose user id matches no user row gets 403, not 401. -/
theorem C9_admin_check_reads_db (st : ServerState) (pu pm : Option String) :
    (∀ (dbOk : Bool) (uid : Nat) (n1 n2 : String),
      (get_admin_data { st with session := some { userId := uid, username := n1 } } pu pm dbOk).1 =
      (get_admin_data { st with session := some { userId := uid, username := n2 } } pu pm dbOk).1) ∧
    (∀ s, st.session = some s →
      st.db.users.find? (fun x => x.id == s.userId) = none →
      (get_admin_data st pu pm true).1.status = 403) := by
  constructor
  · intro dbOk uid n1 n2
    by_cases h : dbOk = false
    · simp [get_admin_data, h]
    · cases hf : st.db.users.find? (fun u => u.id == uid) with
      | none => simp [get_admin_data, h, hf]
      | some u =>
        by_cases ha : u.username = "admin" <;> simp [get_admin_data, h, hf, ha]
  · intro s hs hf
    simp [get_admin_data, hs, hf]

/-- Witness for C9: a session whose user id 99 matches no row (the session
even claims username "admin") gets 403, and renaming the session's username
leaves the response unchanged. -/
theorem C9_admin_check_reads_db_witness :
    (get_admin_data
      { db := stAdm.db, session := some { userId := 99, username := "admin" }, now := 0 }
      none none true).1.status = 403 ∧
    (get_admin_data { db := stAdm.db, session := some { userId := 1, username := "x" }, now := 0 } none none true).1 =
      (get_admin_data { db := stAdm.db, session := some { userId := 1, username := "y" }, now := 0 } none none true).1 := by
  constructor
  · exact (C9_admin_check_reads_db
      { db := stAdm.db, session := some { userId := 99, username := "admin" }, now := 0 }
      none none).2 { userId := 99, username := "admin" } rfl rfl
  · exact (C9_admin_check_reads_db
      { db := stAdm.db, session := none, now := 0 } none none).1 true 1 "x" "y"

/-- The single "bad credentials" response of /api/login (server.js:77): the
same object is sent both when no account matches and when the password
verification fails. -/
def badCredResponse : AuthResponse :=
  { status := 200, success := false, message := some "帳號或密碼錯誤", username := none }

/-- Claim C2: for non-empty credentials, a login against an existing account
with a wrong password and a login with an identifier matching no account
produce the very same response object (same success flag, same message), so
the response does not reveal whether the identifier exists. -/
theorem C2_login_no_enumeration (st : ServerState) (u p : String)
    (hu : u ≠ "") (hp : p ≠ "") :
    (∀ usr, st.db.users.find? (fun x => x.username == u || x.email == u) = some usr →
      bcryptCompare p usr.password = false →
      (login st u p true).1 = badCredResponse ∧ (login st u p true).2 = st) ∧
    (st.db.users.find? (fun x => x.username == u || x.email == u) = none →
      (login st u p true).1 = badCredResponse ∧ (login st u p true).2 = st) := by
  constructor
  · intro usr hf hc
    simp [login, hu, hp, hf, hc, badCredResponse]
  · intro hf
    simp [login, hu, hp, hf, badCredResponse]

/-- Witness for C2: wrong password for the existing user "bob" and a login as
the nonexistent "nobody" yield the identical response. -/
theorem C2_login_no_enumeration_witness :
    (login stBob "bob" "wrong" true).1 = badCredResponse ∧
    (login stBob "nobody" "x" true).1 = badCredResponse := by
  constructor
  · exact ((C2_login_no_enumeration stBob "bob" "wrong" (by decide) (by decide)).1
      { id := 1, username := "bob", email := "b@x", password := bcryptHash "pw" 10, created_at := 0 }
      (by decide) (by decide)).1
  · exact ((C2_login_no_enumeration stBob "nobody" "x" (by decide) (by decide)).2
      (by decide)).1

/-- Claim C4: register fails (success:false, state unchanged — no row, no
session) when a field is empty or the passwords differ, fails with the state
unchanged when the username or email is already taken, and otherwise hashes
the password with bcrypt at cost 10 (≥ 10), appends exactly one user row,
establishes a session for the new user, and answers success with the
submitted username. -/
theorem C4_register_contract (st : ServerState) (u e p c : String) (dbOk : Bool) :
    ((u = "" ∨ e = "" ∨ p = "" ∨ c = "" ∨ p ≠ c) →
      (register st u e p c dbOk).1.success = false ∧ (register st u e p c dbOk).2 = st) ∧
    (u ≠ "" → e ≠ "" → p ≠ "" → c ≠ "" → p = c → dbOk = true →
      st.db.users.any (fun x => x.username == u || x.email == e) = true →
      (register st u e p c dbOk).1.success = false ∧ (register st u e p c dbOk).2 = st) ∧
    (u ≠ "" → e ≠ "" → p ≠ "" → c ≠ "" → p = c → dbOk = true →
      st.db.users.any (fun x => x.username == u || x.email == e) = false →
      (register st u e p c dbOk).1 =
        { status := 200, success := true, message := some "註冊成功！", username := some u } ∧
      (register st u e p c dbOk).2.db.users =
        st.db.users ++ [{ id := st.db.nextUserId, username := u, email := e
                        , password := bcryptHash p 10, created_at := st.now }] ∧
      10 ≤ (bcryptHash p 10).cost ∧
      (register st u e p c dbOk).2.session =
        some { userId := st.db.nextUserId, username := u } ∧
      (register st u e p c dbOk).2.db.messages = st.db.messages) := by
  refine ⟨?_, ?_, ?_⟩
  · intro h
    simp only [register]
    by_cases h1 : u = "" ∨ e = "" ∨ p = "" ∨ c = ""
    · rw [if_pos h1]
      exact ⟨rfl, rfl⟩
    · have hpc : p ≠ c := by tauto
      rw [if_neg h1, if_pos hpc]
      exact ⟨rfl, rfl⟩
  · intro hu he hp hc hpc hdb hany
    subst hpc hdb
    simp [register, hu, he, hp, hany]
  · intro hu he hp hc hpc hdb hany
    subst hpc hdb
    simp [register, hu, he, hp, hany, bcryptHash]

/-- Witness for C4: an empty username is rejected without touching the state,
re-registering "bob" conflicts without touching the state, and a fresh
registration appends one bcrypt-cost-10 row and logs the new user in. -/
theorem C4_register_contract_witness :
    ((register st0 "" "e@x" "p" "p" true).1.success = false ∧
      (register st0 "" "e@x" "p" "p" true).2 = st0) ∧
    ((register stBob "bob" "z@z" "p" "p" true).1.success = false ∧
      (register stBob "bob" "z@z" "p" "p" true).2 = stBob) ∧
    ((register st0 "a" "b@c" "pw" "pw" true).1 =
      { status := 200, success := true, message := some "註冊成功！", username := some "a" } ∧
      (register st0 "a" "b@c" "pw" "pw" true).2.db.users =
        [{ id := 1, username := "a", email := "b@c", password := bcryptHash "pw" 10, created_at := 0 }] ∧
      (register st0 "a" "b@c" "pw" "pw" true).2.session =
        some { userId := 1, username := "a" }) := by
  refine ⟨?_, ?_, ?_⟩
  · exact (C4_register_contract st0 "" "e@x" "p" "p" true).1 (Or.inl rfl)
  · exact (C4_register_contract stBob "bob" "z@z" "p" "p" true).2.1
      (by decide) (by decide) (by decide) (by decide) rfl rfl (by decide)
  · have h := (C4_register_contract st0 "a" "b@c" "pw" "pw" true).2.2
      (by decide) (by decide) (by decide) (by decide) rfl rfl (by decide)
    exact ⟨h.1, h.2.1, h.2.2.2.1⟩

/-- Claim C7: contact without a session answers 401 with success:false and
changes nothing; with a session and an empty field it answers success:false
(HTTP 200) and changes nothing; otherwise it appends exactly one message row
carrying the session's user id and answers success:true. -/
theorem C7_contact_contract (st : ServerState) (n e sb ms : String) (dbOk : Bool) :
    (st.session = none →
      (contact st n e sb ms dbOk).1.status = 401 ∧
      (contact st n e sb ms dbOk).1.success = false ∧
      (contact st n e sb ms dbOk).2 = st) ∧
    (∀ s, st.session = some s → (n = "" ∨ e = "" ∨ sb = "" ∨ ms = "") →
      (contact st n e sb ms dbOk).1.status = 200 ∧
      (contact st n e sb ms dbOk).1.success = false ∧
      (contact st n e sb ms dbOk).2 = st) ∧
    (∀ s, st.session = some s → n ≠ "" → e ≠ "" → sb ≠ "" → ms ≠ "" → dbOk = true →
      (contact st n e sb ms dbOk).1.status = 200 ∧
      (contact st n e sb ms dbOk).1.success = true ∧
      (contact st n e sb ms dbOk).2.db.messages =
        st.db.messages ++ [{ id := st.db.nextMsgId, user_id := some s.userId, name := n
                           , email := e, subject := sb, message := ms, created_at := st.now }] ∧
      (contact st n e sb ms dbOk).2.db.users = st.db.users ∧
      (contact st n e sb ms dbOk).2.session = st.session) := by
  refine ⟨?_, ?_, ?_⟩
  · intro h
    simp [contact, h]
  · intro s hs h
    rcases h with h | h | h | h <;> simp [contact, hs, h]
  · intro s hs hn he hsb hms hdb
    subst hdb
    simp [contact, hs, hn, he, hsb, hms]

/-- Witness for C7: no session gets 401 and no insert; bob with an empty
subject gets a 200 failure and no insert; bob's complete submission inserts
one row tagged user_id 1. -/
theorem C7_contact_contract_witness :
    ((contact st0 "n" "e" "s" "m" true).1.status = 401 ∧
      (contact st0 "n" "e" "s" "m" true).2 = st0) ∧
    ((contact stBob "n" "e" "" "m" true).1.success = false ∧
      (contact stBob "n" "e" "" "m" true).2 = stBob) ∧
    ((contact stBob "n" "e" "s" "m" true).1.success = true ∧
      (contact stBob "n" "e" "s" "m" true).2.db.messages =
        [{ id := 1, user_id := some 1, name := "n", email := "e", subject := "s"
         , message := "m", created_at := 0 }]) := by
  refine ⟨?_, ?_, ?_⟩
  · have h := (C7_contact_contract st0 "n" "e" "s" "m" true).1 rfl
    exact ⟨h.1, h.2.2⟩
  · have h := (C7_contact_contract stBob "n" "e" "" "m" true).2.1
      { userId := 1, username := "bob" } rfl (Or.inr (Or.inr (Or.inl rfl)))
    exact ⟨h.2.1, h.2.2⟩
  · have h := (C7_contact_contract stBob "n" "e" "s" "m" true).2.2
      { userId := 1, username := "bob" } rfl (by decide) (by decide) (by decide) (by decide) rfl
    exact ⟨h.2.1, h.2.2.1⟩

/-- Counterexample to C3 as stated: with an active session, a database
failure on /api/admin/data is a failing response (success:false) that is
neither of the two allowed auth statuses, yet its HTTP status is 500, not
200 (server.js:179 `res.status(500)`). -/
theorem C3_admin_system_error_is_500 :
    (get_admin_data stAdm none none false).1.success = false ∧
    (get_admin_data stAdm none none false).1.status = 500 ∧
    stAdm.session ≠ none := by
  refine ⟨rfl, rfl, by decide⟩

/-- Claim C3 (amended): every failing response carries success:false with a
message, and every response status is 200, except: unauthenticated
/api/contact and /api/admin/data are 401, a non-admin session on
/api/admin/data is 403, and a system error on /api/admin/data is 500
(system errors on all other endpoints are 200). -/
theorem C3_status_contract (st : ServerState) (u e p c lu lp n em sb ms : String)
    (pu pm : Option String) (dbOk : Bool) :
    (register st u e p c dbOk).1.status = 200 ∧
    (login st lu lp dbOk).1.status = 200 ∧
    (check_auth st).1.status = 200 ∧
    (logout st).1.status = 200 ∧
    (contact st n em sb ms dbOk).1.status = (if st.session = none then 401 else 200) ∧
    (get_admin_data st pu pm dbOk).1.status =
      (if st.session = none then 401
       else if dbOk = false then 500
       else if adminOk st = false then 403 else 200) ∧
    (register st u e p c dbOk).1.message ≠ none ∧
    (login st lu lp dbOk).1.message ≠ none ∧
    ((get_admin_data st pu pm dbOk).1.success = false →
      (get_admin_data st pu pm dbOk).1.message ≠ none) := by
  refine ⟨?_, ?_, ?_, ?_, ?_, ?_, ?_, ?_, ?_⟩
  · simp only [register]
    repeat' split
    all_goals rfl
  · simp only [login]
    repeat' split
    all_goals rfl
  · cases h : st.session <;> simp [check_auth, h]
  · rfl
  · cases hss : st.session with
    | none => simp [contact, hss]
    | some s =>
      simp only [contact, hss]
      repeat' split
      all_goals simp_all
  · cases hss : st.session with
    | none => simp [get_admin_data, hss]
    | some s =>
      by_cases hdb : dbOk = false
      · simp [get_admin_data, hss, hdb]
      · cases hf : st.db.users.find? (fun x => x.id == s.userId) with
        | none => simp [get_admin_data, adminOk, hss, hdb, hf]
        | some usr =>
          by_cases ha : usr.username = "admin" <;>
            simp [get_admin_data, adminOk, hss, hdb, hf, ha]
  · simp only [register]
    repeat' split
    all_goals simp
  · simp only [login]
    repeat' split
    all_goals simp
  · cases hss : st.session with
    | none => simp [get_admin_data, hss]
    | some s =>
      by_cases hdb : dbOk = false
      · simp [get_admin_data, hss, hdb]
      · cases hf : st.db.users.find? (fun x => x.id == s.userId) with
        | none => simp [get_admin_data, hss, hdb, hf]
        | some usr =>
          by_cases ha : usr.username = "admin" <;>
            simp [get_admin_data, hss, hdb, hf, ha]

/-- Witness for C3 (amended): a database failure on /api/register still
answers 200, an unauthenticated /api/contact answers 401, and a database
failure on /api/admin/data under bob's session answers 500. -/
theorem C3_status_contract_witness :
    (register st0 "a" "b@c" "p" "p" false).1.status = 200 ∧
    (contact st0 "n" "e" "s" "m" true).1.status = 401 ∧
    (get_admin_data stBob none none false).1.status = 500 := by
  have h := C3_status_contract st0 "a" "b@c" "p" "p" "x" "y" "n" "e" "s" "m" none none false
  have h2 := C3_status_contract st0 "a" "b@c" "p" "p" "x" "y" "n" "e" "s" "m" none none true
  have h3 := C3_status_contract stBob "a" "b@c" "p" "p" "x" "y" "n" "e" "s" "m" none none false
  refine ⟨h.1, ?_, ?_⟩
  · rw [h2.2.2.2.2.1]
    rfl
  · rw [h3.2.2.2.2.2.1]
    rfl

/-- `(n + 9) / 10` is exactly the ceiling of `n / 10`: it is the least `k`
with `n ≤ 10 * k`. -/
theorem ceil10_least (n : Nat) :
    n ≤ 10 * ((n + 9) / 10) ∧ ∀ k, n ≤ 10 * k → (n + 9) / 10 ≤ k := by
  constructor
  · omega
  · intro k hk
    omega

/-- Claim C5: for an admin session, each pagination block uses page size 10
and the offset (page-1)*10, reports the row count of the table as total, the
requested page (default 1) as current_page, and as total_pages the ceiling of
total/10 — the least k with total ≤ 10*k, which is 0 for an empty table. -/
theorem C5_admin_pagination (st : ServerState) (pu pm : Option String)
    (s : Session) (usr : User)
    (hs : st.session = some s)
    (hf : st.db.users.find? (fun x => x.id == s.userId) = some usr)
    (ha : usr.username = "admin") :
    ∃ ub mb,
      (get_admin_data st pu pm true).1.users = some ub ∧
      (get_admin_data st pu pm true).1.messages = some mb ∧
      ub.per_page = 10 ∧ mb.per_page = 10 ∧
      ub.total = st.db.users.length ∧ mb.total = st.db.messages.length ∧
      ub.current_page = pageOr1 pu ∧ mb.current_page = pageOr1 pm ∧
      ub.data.length = min 10 (st.db.users.length - ((pageOr1 pu - 1) * 10).toNat) ∧
      mb.data.length = min 10 (st.db.messages.length - ((pageOr1 pm - 1) * 10).toNat) ∧
      ub.total ≤ 10 * ub.total_pages ∧
      (∀ k, ub.total ≤ 10 * k → ub.total_pages ≤ k) ∧
      (ub.total = 0 → ub.total_pages = 0) ∧
      mb.total ≤ 10 * mb.total_pages ∧
      (∀ k, mb.total ≤ 10 * k → mb.total_pages ≤ k) ∧
      (mb.total = 0 → mb.total_pages = 0) := by
  refine ⟨paginate ((sortBy userDesc st.db.users).map projUser) (pageOr1 pu),
          paginate ((sortBy msgDesc st.db.messages).map (joinMsg st.db.users)) (pageOr1 pm),
          ?_, ?_, rfl, rfl, ?_, ?_, rfl, rfl, ?_, ?_, ?_, ?_, ?_, ?_, ?_, ?_⟩
  · simp [get_admin_data, hs, hf, ha]
  · simp [get_admin_data, hs, hf, ha]
  · simp [paginate, length_sortBy]
  · simp [paginate, length_sortBy]
  · simp [paginate, length_sortBy]
  · simp [paginate, length_sortBy]
  · simp only [paginate, List.length_map, length_sortBy]
    exact (ceil10_least st.db.users.length).1
  · intro k hk
    simp only [paginate, List.length_map, length_sortBy] at hk ⊢
    exact (ceil10_least st.db.users.length).2 k hk
  · intro h
    simp only [paginate, List.length_map, length_sortBy] at h ⊢
    omega
  · simp only [paginate, List.length_map, length_sortBy]
    exact (ceil10_least st.db.messages.length).1
  · intro k hk
    simp only [paginate, List.length_map, length_sortBy] at hk ⊢
    exact (ceil10_least st.db.messages.length).2 k hk
  · intro h
    simp only [paginate, List.length_map, length_sortBy] at h ⊢
    omega

/-- A demo user row for the pagination witness. -/
def mkUser (i : Nat) : User :=
  { id := i + 2, username := "u" ++ toString i, email := "e" ++ toString i
  , password := bcryptHash "p" 10, created_at := i + 1 }

/-- The "admin" user row used by the pagination witness. -/
def adminRow : User :=
  { id := 1, username := "admin", email := "a@x", password := bcryptHash "pw" 10, created_at := 0 }

/-- 25 user rows: "admin" plus 24 generated users. -/
def demoUsers : List User :=
  adminRow :: (List.range 24).map mkUser

/-- A state with 25 users, admin logged in. -/
def st25 : ServerState :=
  { db := { users := demoUsers, messages := [], nextUserId := 27, nextMsgId := 1 }
  , session := some { userId := 1, username := "admin" }, now := 30 }

/-- Witness for C5: with 25 users, page 1 holds 10 rows, page 3 holds 5 rows,
and total_pages is 3; an empty messages table reports total_pages 0. -/
theorem C5_admin_pagination_witness :
    (∃ ub, (get_admin_data st25 (some "1") none true).1.users = some ub ∧
      ub.data.length = 10 ∧ ub.total = 25 ∧ ub.total_pages = 3) ∧
    (∃ ub, (get_admin_data st25 (some "3") none true).1.users = some ub ∧
      ub.data.length = 5) ∧
    (∃ mb, (get_admin_data st25 (some "1") none true).1.messages = some mb ∧
      mb.total = 0 ∧ mb.total_pages = 0) := by
  have h25 : st25.db.users.length = 25 := by decide
  have h0 : st25.db.messages.length = 0 := rfl
  obtain ⟨ub, mb, hA1, hA2, _, _, hC1, hC2, _, _, hE1, _, hF1, hF2, _, _, _, hG3⟩ :=
    C5_admin_pagination st25 (some "1") none { userId := 1, username := "admin" }
      adminRow rfl (by decide) rfl
  obtain ⟨ub3, mb3, hB1, _, _, _, _, _, _, _, hE3, _⟩ :=
    C5_admin_pagination st25 (some "3") none { userId := 1, username := "admin" }
      adminRow rfl (by decide) rfl
  refine ⟨⟨ub, hA1, ?_, ?_, ?_⟩, ⟨ub3, hB1, ?_⟩, ⟨mb, hA2, ?_, ?_⟩⟩
  · rw [hE1, h25]
    rfl
  · rw [hC1, h25]
  · have hk := hF2 3 (by rw [hC1, h25]; omega)
    rw [hC1, h25] at hF1
    omega
  · rw [hE3, h25]
    rfl
  · rw [hC2, h0]
  · apply hG3
    rw [hC2, h0]

/-- The serialized admin user rows never contain a "password" key. -/
theorem pw_notin_userRows (l : List AdminUserRow) :
    "password" ∉ keysOfList (l.map encUserRow) := by
  induction l with
  | nil => simp [keysOfList]
  | cons x xs ih => simp [keysOfList, encUserRow, keysOf, keysOfFields, ih]

/-- The serialized joined message rows never contain a "password" key. -/
theorem pw_notin_msgRows (l : List AdminMsgRow) :
    "password" ∉ keysOfList (l.map encMsgRow) := by
  induction l with
  | nil => simp [keysOfList]
  | cons x xs ih =>
    cases hu : x.user_id <;> cases hn : x.user_name <;>
      simp [keysOfList, encMsgRow, keysOf, keysOfFields, hu, hn, ih]

/-- A serialized users pagination block never contains a "password" key. -/
theorem pw_notin_userBlock (b : PageBlock AdminUserRow) :
    "password" ∉ keysOf (encBlock encUserRow b) := by
  have h := pw_notin_userRows b.data
  simp [encBlock, keysOf, keysOfFields, keysOfList]
  simpa [keysOfList] using h

/-- A serialized messages pagination block never contains a "password" key. -/
theorem pw_notin_msgBlock (b : PageBlock AdminMsgRow) :
    "password" ∉ keysOf (encBlock encMsgRow b) := by
  have h := pw_notin_msgRows b.data
  simp [encBlock, keysOf, keysOfFields, keysOfList]
  simpa [keysOfList] using h

/-- No serialized admin-data response contains a "password" key. -/
theorem pw_notin_encAdmin (r : AdminResponse) :
    "password" ∉ keysOf (encAdmin r) := by
  have hu : ∀ b : PageBlock AdminUserRow, "password" ∉ keysOf (encBlock encUserRow b) :=
    pw_notin_userBlock
  have hm : ∀ b : PageBlock AdminMsgRow, "password" ∉ keysOf (encBlock encMsgRow b) :=
    pw_notin_msgBlock
  cases h1 : r.message <;> cases h2 : r.users <;> cases h3 : r.messages <;>
    simp_all [encAdmin, optField, keysOf, keysOfFields, keysOfList]

/-- No serialized register/login response contains a "password" key. -/
theorem pw_notin_encAuth (r : AuthResponse) :
    "password" ∉ keysOf (encAuth r) := by
  cases h1 : r.message <;> cases h2 : r.username <;>
    simp [encAuth, optField, h1, h2, keysOf, keysOfFields, keysOfList]

/-- No serialized check_auth response contains a "password" key. -/
theorem pw_notin_encCheckAuth (r : CheckAuthResponse) :
    "password" ∉ keysOf (encCheckAuth r) := by
  cases h : r.username <;>
    simp [encCheckAuth, optField, h, keysOf, keysOfFields, keysOfList]

/-- Claim C6: no response of /api/admin/data, /api/register, /api/login or
/api/check_auth ever serializes a "password" key anywhere in its payload;
each admin users row carries exactly the keys id, username, email and
created_at. -/
theorem C6_password_never_exposed (st : ServerState) (u e p c lu lp : String)
    (pu pm : Option String) (dbOk : Bool) :
    "password" ∉ keysOf (encAdmin (get_admin_data st pu pm dbOk).1) ∧
    "password" ∉ keysOf (encAuth (register st u e p c dbOk).1) ∧
    "password" ∉ keysOf (encAuth (login st lu lp dbOk).1) ∧
    "password" ∉ keysOf (encCheckAuth (check_auth st).1) ∧
    (∀ r : AdminUserRow, keysOf (encUserRow r) = ["id", "username", "email", "created_at"]) := by
  refine ⟨pw_notin_encAdmin _, pw_notin_encAuth _, pw_notin_encAuth _,
    pw_notin_encCheckAuth _, ?_⟩
  intro r
  simp [encUserRow, keysOf, keysOfFields]

/-- Witness for C6 at the admin state: the concrete admin-data and login
responses contain no "password" key. -/
theorem C6_password_never_exposed_witness :
    "password" ∉ keysOf (encAdmin (get_admin_data stAdm none none true).1) ∧
    "password" ∉ keysOf (encAuth (login stAdm "admin" "pw" true).1) := by
  have h := C6_password_never_exposed stAdm "a" "b" "c" "c" "admin" "pw" none none true
  exact ⟨h.1, h.2.2.1⟩

/-- Congruence of /api/admin/data in its two page parameters: the response
depends on them only through `pageOr1`. -/
theorem get_admin_data_congr (st : ServerState) (a a2 b b2 : Option String)
    (dbOk : Bool) (ha : pageOr1 a = pageOr1 a2) (hb : pageOr1 b = pageOr1 b2) :
    get_admin_data st a b dbOk = get_admin_data st a2 b2 dbOk := by
  cases hss : st.session with
  | none => simp [get_admin_data, hss]
  | some s =>
    by_cases hdb : dbOk = false
    · simp [get_admin_data, hss, hdb]
    · cases hf : st.db.users.find? (fun x => x.id == s.userId) with
      | none => simp [get_admin_data, hss, hdb, hf]
      | some usr =>
        by_cases hadm : usr.username = "admin" <;>
          simp [get_admin_data, hss, hdb, hf, hadm, ha, hb]

/-- Claim C10: a page_users or page_msgs value whose parseInt result is 0 is
treated exactly like a missing or non-numeric value: the page falls back to
1 (offset 0) and the whole admin-data response is the one of a missing
parameter. -/
theorem C10_page_zero_is_default (st : ServerState) (pu pm : Option String)
    (dbOk : Bool) (q : String) (hq : jsParseInt q = some 0) :
    pageOr1 (some q) = 1 ∧ pageOr1 none = 1 ∧
    ((pageOr1 (some q) - 1) * 10).toNat = 0 ∧
    get_admin_data st (some q) pm dbOk = get_admin_data st none pm dbOk ∧
    get_admin_data st pu (some q) dbOk = get_admin_data st pu none dbOk := by
  have h1 : pageOr1 (some q) = 1 := by simp [pageOr1, hq]
  refine ⟨h1, rfl, by rw [h1]; rfl, ?_, ?_⟩
  · exact get_admin_data_congr st (some q) none pm pm dbOk (by rw [h1]; rfl) rfl
  · exact get_admin_data_congr st pu pu (some q) none dbOk rfl (by rw [h1]; rfl)

/-- Witness for C10: the literal query string "0" parses to 0 and the
admin-data response equals that for an absent page parameter. -/
theorem C10_page_zero_is_default_witness :
    jsParseInt "0" = some 0 ∧ pageOr1 (some "0") = 1 ∧
    get_admin_data st25 (some "0") none true = get_admin_data st25 none none true := by
  have h := C10_page_zero_is_default st25 none none true "0" (by decide)
  exact ⟨by decide, h.1, h.2.2.2.1⟩

end Portfolio
